import Mathlib

/-!
Shallow embedding of the QR-session attendance protocol of the
mini-project-backend repository: the scan pipeline (`scanAttendance` in the
student controller), the manual teacher mark (`markAttendanceManually`),
QR/session issuance (`generateLectureQR`) and the attendance summary
(`getAttendanceSummary`).  JavaScript `Date` values are modelled as `Int`
milliseconds since the epoch (timezone fixed to UTC); `NaN`-producing
conversions are modelled with `Option Int` where `none` stands for `NaN`
(an invalid date), matching the JS rule that every `<` comparison against
`NaN` is `false`.  Mongo/Mongoose stores are modelled as Lean lists; the
unique compound index on (lecture, student) declared in
`src/models/Attendance.js` makes the insert fail with a duplicate-key error
whenever a record for the pair is already present at insert time.
-/

/-- Attendance status enum of `src/models/Attendance.js`. -/
inductive AttStatus
  | present
  | absent
  | late
deriving DecidableEq, BEq, Repr

/-- A lecture session document (`src/models/Lecture.js`).  Object ids are
modelled as `Nat`; `date` and `expiresAt` are epoch milliseconds.  The Lean
keyword `section` forces the field name `sectionLabel` for the source's
`section` field. -/
structure Lecture where
  id : Nat
  branch : Nat
  subjectCode : String
  subjectName : String
  semester : Int
  sectionLabel : String
  date : Int
  startTime : String
  endTime : String
  qrCodeData : String
  isActive : Bool
  expiresAt : Int
deriving DecidableEq, Repr

/-- A student profile document (`src/models/Student.js`), the fields the
scan pipeline reads. -/
structure Student where
  id : Nat
  user : Nat
  branch : Nat
  semester : Int
  sectionLabel : String
deriving DecidableEq, Repr

/-- An attendance record document (`src/models/Attendance.js`). -/
structure AttendanceRecord where
  lecture : Nat
  student : Nat
  status : AttStatus
  location : Option (Int × Int)
  deviceInfo : Option String
deriving DecidableEq, Repr

/-- Milliseconds in one day. -/
def msPerDay : Int := 86400000

/-- Split a character list on a separator, JS `String.prototype.split`
style: `""` yields `[""]`, a trailing separator yields a trailing empty
component. -/
def splitCharsOn (sep : Char) : List Char → List (List Char)
  | [] => [[]]
  | c :: rest =>
    if c = sep then [] :: splitCharsOn sep rest
    else
      match splitCharsOn sep rest with
      | h :: t => (c :: h) :: t
      | [] => [[c]]

/-- Whitespace for JS `Number`'s leading/trailing trim. -/
def isSpaceChar (c : Char) : Bool :=
  c = ' ' || c = '\t' || c = '\n' || c = '\r'

/-- Strip leading and trailing whitespace. -/
def trimChars (l : List Char) : List Char :=
  ((l.dropWhile isSpaceChar).reverse.dropWhile isSpaceChar).reverse

/-- Value of a digit run; `none` when a non-digit occurs (the run is known
nonempty at every call site). -/
def digitsVal? (l : List Char) : Option Nat :=
  l.foldl
    (fun acc c =>
      match acc with
      | none => none
      | some n => if c.isDigit then some (n * 10 + (c.toNat - 48)) else none)
    (some 0)

/-- JS `Number(s)` restricted to the integral strings the code feeds it:
`none` models `NaN`; a blank string converts to `0`, an optional sign is
honoured. -/
def jsNumber (s : String) : Option Int :=
  match trimChars s.data with
  | [] => some 0
  | '-' :: rest =>
      if rest = [] then none else (digitsVal? rest).map (fun n => -(n : Int))
  | '+' :: rest =>
      if rest = [] then none else (digitsVal? rest).map (fun n => (n : Int))
  | l => (digitsVal? l).map (fun n => (n : Int))

/-- `d.setHours(h, m, 0, 0)` on a date `t` (UTC): keep the calendar day,
set the time of day to `h:m`; out-of-range values roll over exactly as the
arithmetic does in JS. -/
def setHoursUTC (t h m : Int) : Int :=
  t - t.emod msPerDay + h * 3600000 + m * 60000

/-- `lecture.startTime.split(":").map(Number)` destructured to
`[startHour, startMin]`: `none` when either component is `NaN` or missing
(an absent destructuring target is `undefined`, which becomes `NaN` in
`setHours`). -/
def parseStartTime (s : String) : Option (Int × Int) :=
  match (splitCharsOn ':' s.data).map (fun c => jsNumber ⟨c⟩) with
  | some h :: some m :: _ => some (h, m)
  | _ => none

/-- The 15-minute late threshold in milliseconds (`15 * 60 * 1000`). -/
def lateThreshold : Int := 15 * 60 * 1000

/-- Late/present classification of the scan pipeline: `lectureDate` is the
session's `date` with time of day set from `startTime`; the status is
`late` exactly when `now - lectureDate > lateThreshold`.  When `startTime`
does not yield two numbers the JS subtraction is `NaN`, the `>` is false
and the status is `present`. -/
def scanStatus (lec : Lecture) (now : Int) : AttStatus :=
  match parseStartTime lec.startTime with
  | some (h, m) =>
      if now - setHoursUTC lec.date h m > lateThreshold then .late else .present
  | none => .present

/-- The fields the scan reads from a successfully JSON-parsed QR payload:
`lectureCode` is `none` when absent; `expiresAt` is the value of
`new Date(parsedData.expiresAt)` with `none` for an invalid date (missing
field or unparseable string). -/
structure ScanPayload where
  lectureCode : Option String
  expiresAt : Option Int
deriving DecidableEq, Repr

/-- The raw `qrData` request field after `JSON.parse`: either it threw, or
it produced a payload. -/
inductive QRData
  | malformed
  | ok (p : ScanPayload)
deriving DecidableEq, Repr

/-- JS `<` between a possibly invalid date and `now`: any comparison with
`NaN` is `false`. -/
def jsDateLt (d : Option Int) (now : Int) : Bool :=
  match d with
  | some t => decide (t < now)
  | none => false

/-- `Lecture.findOne({ qrCodeData: lectureCode, isActive: true })`; a
missing `lectureCode` matches no stored lecture. -/
def findLecture (lects : List Lecture) (code : Option String) : Option Lecture :=
  match code with
  | some c => lects.find? (fun l => l.qrCodeData == c && l.isActive)
  | none => none

/-- `Student.findOne({ user: req.user._id })`. -/
def findStudentByUser (studs : List Student) (userId : Nat) : Option Student :=
  studs.find? (fun s => s.user == userId)

/-- `Attendance.findOne({ lecture: lec, student: stu })`. -/
def findAttendance (atts : List AttendanceRecord) (lec stu : Nat) :
    Option AttendanceRecord :=
  atts.find? (fun a => a.lecture == lec && a.student == stu)

/-- `Attendance.create` under the unique `(lecture, student)` compound
index of `src/models/Attendance.js`: the insert raises a duplicate-key
error when a record for the pair already exists in the store at insert
time, otherwise the record is appended. -/
def createAttendance (atts : List AttendanceRecord) (r : AttendanceRecord) :
    Except Unit (List AttendanceRecord) :=
  if atts.any (fun a => a.lecture == r.lecture && a.student == r.student) then
    .error ()
  else
    .ok (atts ++ [r])

/-- Every distinct outcome of the scan endpoint: one constructor per
`return res...` of `scanAttendance`, plus the catch-all 500. -/
inductive ScanResult
  | invalidFormat
  | expired
  | lectureNotFound
  | studentNotFound
  | branchMismatch
  | semesterMismatch
  | sectionMismatch
  | alreadyMarked (existing : AttendanceRecord)
  | marked (status : AttStatus)
  | serverError
deriving DecidableEq, Repr

/-- One execution of `scanAttendance` (student controller).  The store is
read at two different `await` points: `attCheck` is the attendance
collection as observed by the duplicate-check `findOne`, and `attIns` is
the collection at the moment `Attendance.create` runs (they differ exactly
when a concurrent insert lands between the two).  Any error thrown by the
insert — in particular the duplicate-key violation — is caught by the
function's catch-all, which answers with the generic 500 `serverError`.
Returns the response together with the attendance collection after the
call. -/
def scanStep (lects : List Lecture) (studs : List Student)
    (attCheck attIns : List AttendanceRecord) (userId : Nat) (qr : QRData)
    (loc : Option (Int × Int)) (dev : Option String) (now : Int) :
    ScanResult × List AttendanceRecord :=
  match qr with
  | .malformed => (.invalidFormat, attIns)
  | .ok p =>
    if jsDateLt p.expiresAt now then (.expired, attIns)
    else
      match findLecture lects p.lectureCode with
      | none => (.lectureNotFound, attIns)
      | some lec =>
        match findStudentByUser studs userId with
        | none => (.studentNotFound, attIns)
        | some stu =>
          if stu.branch ≠ lec.branch then (.branchMismatch, attIns)
          else if stu.semester ≠ lec.semester then (.semesterMismatch, attIns)
          else if stu.sectionLabel ≠ lec.sectionLabel then (.sectionMismatch, attIns)
          else
            match findAttendance attCheck lec.id stu.id with
            | some existing => (.alreadyMarked existing, attIns)
            | none =>
              match createAttendance attIns
                  ⟨lec.id, stu.id, scanStatus lec now, loc, dev⟩ with
              | .ok atts2 => (.marked (scanStatus lec now), atts2)
              | .error _ => (.serverError, attIns)

/-- The sequential (race-free) scan: the duplicate check and the insert see
the same store. -/
def scanAttendance (lects : List Lecture) (studs : List Student)
    (atts : List AttendanceRecord) (userId : Nat) (qr : QRData)
    (loc : Option (Int × Int)) (dev : Option String) (now : Int) :
    ScanResult × List AttendanceRecord :=
  scanStep lects studs atts atts userId qr loc dev now

/-- `Lecture.findById(lectureId)`. -/
def findLectureById (lects : List Lecture) (lid : Nat) : Option Lecture :=
  lects.find? (fun l => l.id == lid)

/-- Mongoose `attendance.save()` after `attendance.status = status`: the
first stored record for the pair gets the new status, the rest of the
store is untouched. -/
def setStatusFirst (atts : List AttendanceRecord) (lec stu : Nat)
    (st : AttStatus) : List AttendanceRecord :=
  match atts with
  | [] => []
  | a :: rest =>
    if a.lecture == lec && a.student == stu then { a with status := st } :: rest
    else a :: setStatusFirst rest lec stu st

/-- Outcomes of `markAttendanceManually` (teacher controller). -/
inductive ManualResult
  | lectureNotFound
  | marked (r : AttendanceRecord)
  | serverError
deriving DecidableEq, Repr

/-- `markAttendanceManually` (teacherController.js): look up the lecture by
id (404 when absent), then create-or-update the record for
`(lecture, student)` with the given status — no eligibility check of any
kind is performed.  Returns the response and the store after the call. -/
def markAttendanceManually (lects : List Lecture)
    (atts : List AttendanceRecord) (lectureId studentId : Nat)
    (st : AttStatus) : ManualResult × List AttendanceRecord :=
  match findLectureById lects lectureId with
  | none => (.lectureNotFound, atts)
  | some lec =>
    match findAttendance atts lec.id studentId with
    | some a =>
        (.marked { a with status := st }, setStatusFirst atts lec.id studentId st)
    | none =>
        let r : AttendanceRecord := ⟨lec.id, studentId, st, none, none⟩
        match createAttendance atts r with
        | .ok atts2 => (.marked r, atts2)
        | .error _ => (.serverError, atts)

/-- JS `x || d` for the numeric request field `validMinutes`: `none` models
an absent field (`undefined`, falsy) and `0` is falsy, so both fall back to
the default; every other number is used as given. -/
def jsOrDefault (v : Option Int) (d : Int) : Int :=
  match v with
  | none => d
  | some x => if x = 0 then d else x

/-- `generateLectureQR`'s expiry computation (teacherController.js):
`expiresAt.setMinutes(expiresAt.getMinutes() + (validMinutes || 60))`,
i.e. `now` plus `(validMinutes || 60)` minutes. -/
def computeExpiresAt (now : Int) (validMinutes : Option Int) : Int :=
  now + jsOrDefault validMinutes 60 * 60000

/-- Outcomes of `generateLectureQR` relevant to session issuance. -/
inductive QRGenResult
  | teacherNotFound
  | created (expiresAt : Int)
deriving DecidableEq, Repr

/-- `generateLectureQR` (teacherController.js): when the caller has a
teacher profile the lecture is created unconditionally with the computed
expiry; there is no validation of `validMinutes` and no distinct rejection
for it. -/
def generateLectureQR (teacherExists : Bool) (now : Int)
    (validMinutes : Option Int) : QRGenResult :=
  if teacherExists then .created (computeExpiresAt now validMinutes)
  else .teacherNotFound

/-- `Math.round` on the exact rational value: JS rounds half toward
positive infinity. -/
def jsRound (q : ℚ) : Int := ⌊q + 1 / 2⌋

/-- The percentage formula of `getAttendanceSummary`:
`Math.round(((present + late) / totalLectures) * 100)`, and `0` when
`totalLectures` is `0`. -/
def pct (p l t : Nat) : Int :=
  if 0 < t then jsRound (((p : ℚ) + l) / t * 100) else 0

/-- One row of the summary response (subject-wise or overall). -/
structure SubjectSummary where
  totalLectures : Nat
  present : Nat
  late : Nat
  absent : Int
  percentage : Int
deriving DecidableEq, Repr

/-- The overall block of `getAttendanceSummary`: counts `present` and
`late` over all of the student's records, `totalLectures` over all the
cohort's lectures, `absent` as the difference. -/
def overallSummary (allLectures : List Lecture)
    (records : List AttendanceRecord) : SubjectSummary :=
  let p := (records.filter (fun a => a.status == AttStatus.present)).length
  let l := (records.filter (fun a => a.status == AttStatus.late)).length
  let t := allLectures.length
  { totalLectures := t, present := p, late := l,
    absent := (t : Int) - p - l, percentage := pct p l t }

/-- `allLectures.find((l) => l._id === record.lecture)`. -/
def lookupLecture (allLectures : List Lecture) (lid : Nat) : Option Lecture :=
  allLectures.find? (fun l => l.id == lid)

/-- Number of cohort lectures carrying the given subject code. -/
def subjectTotal (allLectures : List Lecture) (code : String) : Nat :=
  (allLectures.filter (fun l => l.subjectCode == code)).length

/-- Number of the student's records with the given status whose lecture
resolves (by id, first match) to a cohort lecture of the given subject —
the per-subject counting loop of `getAttendanceSummary`. -/
def subjectStatusCount (allLectures : List Lecture)
    (records : List AttendanceRecord) (code : String) (st : AttStatus) : Nat :=
  (records.filter (fun r =>
    match lookupLecture allLectures r.lecture with
    | some l => l.subjectCode == code && r.status == st
    | none => false)).length

/-- The subject-wise summary row of `getAttendanceSummary` for a subject
code occurring in the cohort's lectures. -/
def subjectSummary (allLectures : List Lecture)
    (records : List AttendanceRecord) (code : String) : SubjectSummary :=
  let t := subjectTotal allLectures code
  let p := subjectStatusCount allLectures records code .present
  let l := subjectStatusCount allLectures records code .late
  { totalLectures := t, present := p, late := l,
    absent := (t : Int) - p - l, percentage := pct p l t }

/-- At most one stored record per (lecture, student) pair — the uniqueness
invariant the compound index maintains. -/
def pairUnique (atts : List AttendanceRecord) : Prop :=
  atts.Pairwise (fun a b => ¬(a.lecture = b.lecture ∧ a.student = b.student))

/-- The stored records for one (lecture, student) pair. -/
def pairRecords (atts : List AttendanceRecord) (lec stu : Nat) :
    List AttendanceRecord :=
  atts.filter (fun a => a.lecture == lec && a.student == stu)

/-- One self-scan attempt in a history: the attendance store the duplicate
check observed (an arbitrary earlier snapshot under interleaving) together
with the request data. -/
structure ScanEvent where
  snapshot : List AttendanceRecord
  userId : Nat
  qr : QRData
  loc : Option (Int × Int)
  dev : Option String
  now : Int

/-- Run a sequence of self-scan attempts against the store; each insert
executes against the authoritative store, each duplicate check against its
event's snapshot. -/
def runScans (lects : List Lecture) (studs : List Student)
    (evs : List ScanEvent) (atts : List AttendanceRecord) :
    List AttendanceRecord :=
  evs.foldl
    (fun acc e =>
      (scanStep lects studs e.snapshot acc e.userId e.qr e.loc e.dev e.now).2)
    atts

/-- Sample lecture: branch 1, semester 3, section "A", date at epoch day 0,
start 09:00, QR token "code", active, stored expiry at 100 ms. -/
def lecS : Lecture :=
  ⟨0, 1, "CS101", "Data Structures", 3, "A", 0, "09:00", "10:00", "code",
    true, 100⟩

/-- Sample student (profile id 5, account id 7) in the lecture's cohort. -/
def stuS : Student := ⟨5, 7, 1, 3, "A"⟩

/-- Same student but enrolled in section "B". -/
def stuWrongSection : Student := ⟨5, 7, 1, 3, "B"⟩

/-- The attendance record a successful scan of `lecS` by `stuS` creates. -/
def recS : AttendanceRecord := ⟨0, 5, .present, none, none⟩

/-- Ten scheduled cohort lectures of one subject (the summary scenario). -/
def scenarioLectures : List Lecture :=
  (List.range 10).map (fun i =>
    ⟨i, 1, "CS101", "Data Structures", 3, "A", 0, "09:00", "10:00", "c",
      true, 100⟩)

/-- The student's records in the summary scenario: six `present`, two
`late`, two of the ten lectures unattended. -/
def scenarioRecords : List AttendanceRecord :=
  (List.range 6).map (fun i => ⟨i, 5, .present, none, none⟩) ++
    [⟨6, 5, .late, none, none⟩, ⟨7, 5, .late, none, none⟩]

/-- A `findOne` miss means no stored record satisfies the pair predicate,
so the insert-time duplicate test is false. -/
lemma findAttendance_none_any {atts : List AttendanceRecord} {lec stu : Nat}
    (h : findAttendance atts lec stu = none) :
    atts.any (fun a => a.lecture == lec && a.student == stu) = false := by
  rw [List.any_eq_false]
  intro a ha
  have := List.find?_eq_none.mp h a ha
  simpa using this

/-- A `findOne` hit exhibits a stored record satisfying the pair
predicate, so the insert-time duplicate test is true. -/
lemma findAttendance_some_any {atts : List AttendanceRecord} {lec stu : Nat}
    {a : AttendanceRecord} (h : findAttendance atts lec stu = some a) :
    atts.any (fun x => x.lecture == lec && x.student == stu) = true := by
  rw [List.any_eq_true]
  have h' :
      List.find? (fun x => x.lecture == lec && x.student == stu) atts = some a := h
  have hp := List.find?_some h'
  exact ⟨a, List.mem_of_find?_eq_some h', by simpa using hp⟩

/-- The payload-expiry comparison fires exactly on a valid date strictly
before `now`. -/
lemma jsDateLt_true_iff {d : Option Int} {now : Int} :
    jsDateLt d now = true ↔ ∃ t, d = some t ∧ t < now := by
  cases d <;> simp [jsDateLt]

/-- A scan whose payload passes the expiry gate can never answer
`expired`: every later branch returns a different outcome. -/
lemma scanStep_ne_expired {lects : List Lecture} {studs : List Student}
    {ac ai : List AttendanceRecord} {u : Nat} {p : ScanPayload}
    {loc : Option (Int × Int)} {dev : Option String} {now : Int}
    (hfresh : jsDateLt p.expiresAt now = false) :
    (scanStep lects studs ac ai u (.ok p) loc dev now).1 ≠ .expired := by
  unfold scanStep
  simp only [hfresh, Bool.false_eq_true, if_false]
  (repeat' split) <;> simp

/-- A scan whose payload parsed can never answer `invalidFormat`. -/
lemma scanStep_ne_invalidFormat {lects : List Lecture} {studs : List Student}
    {ac ai : List AttendanceRecord} {u : Nat} {p : ScanPayload}
    {loc : Option (Int × Int)} {dev : Option String} {now : Int} :
    (scanStep lects studs ac ai u (.ok p) loc dev now).1 ≠ .invalidFormat := by
  unfold scanStep
  (repeat' split) <;> simp_all

/-- Success characterization of one scan: with a fresh payload, resolved
active lecture, matching cohort and no duplicate at either read, the scan
classifies and appends exactly one record. -/
lemma scanStep_success {lects : List Lecture} {studs : List Student}
    {ac ai : List AttendanceRecord} {u : Nat} {p : ScanPayload}
    (loc : Option (Int × Int)) (dev : Option String) {now : Int}
    {lec : Lecture} {stu : Student}
    (hfresh : jsDateLt p.expiresAt now = false)
    (hl : findLecture lects p.lectureCode = some lec)
    (hs : findStudentByUser studs u = some stu)
    (hb : stu.branch = lec.branch)
    (hm : stu.semester = lec.semester)
    (hsec : stu.sectionLabel = lec.sectionLabel)
    (hdupC : findAttendance ac lec.id stu.id = none)
    (hdupI : findAttendance ai lec.id stu.id = none) :
    scanStep lects studs ac ai u (.ok p) loc dev now =
      (.marked (scanStatus lec now),
        ai ++ [⟨lec.id, stu.id, scanStatus lec now, loc, dev⟩]) := by
  unfold scanStep
  simp [hfresh, hl, hs, hb, hm, hsec, hdupC, createAttendance,
    findAttendance_none_any hdupI]

/-- Early-exit duplicate characterization: when the duplicate check sees a
record, the scan answers `alreadyMarked` with that record and writes
nothing. -/
lemma scanStep_alreadyMarked {lects : List Lecture} {studs : List Student}
    {ac : List AttendanceRecord} (ai : List AttendanceRecord) {u : Nat}
    {p : ScanPayload} (loc : Option (Int × Int)) (dev : Option String)
    {now : Int} {lec : Lecture} {stu : Student} {ex : AttendanceRecord}
    (hfresh : jsDateLt p.expiresAt now = false)
    (hl : findLecture lects p.lectureCode = some lec)
    (hs : findStudentByUser studs u = some stu)
    (hb : stu.branch = lec.branch)
    (hm : stu.semester = lec.semester)
    (hsec : stu.sectionLabel = lec.sectionLabel)
    (hdupC : findAttendance ac lec.id stu.id = some ex) :
    scanStep lects studs ac ai u (.ok p) loc dev now =
      (.alreadyMarked ex, ai) := by
  unfold scanStep
  simp [hfresh, hl, hs, hb, hm, hsec, hdupC]

/-- Race characterization: the duplicate check missed but a record for the
pair is present at insert time, so the insert raises the duplicate-key
error and the catch-all answers the generic 500. -/
lemma scanStep_dupInsert {lects : List Lecture} {studs : List Student}
    {ac ai : List AttendanceRecord} {u : Nat} {p : ScanPayload}
    (loc : Option (Int × Int)) (dev : Option String) {now : Int}
    {lec : Lecture} {stu : Student} {a : AttendanceRecord}
    (hfresh : jsDateLt p.expiresAt now = false)
    (hl : findLecture lects p.lectureCode = some lec)
    (hs : findStudentByUser studs u = some stu)
    (hb : stu.branch = lec.branch)
    (hm : stu.semester = lec.semester)
    (hsec : stu.sectionLabel = lec.sectionLabel)
    (hdupC : findAttendance ac lec.id stu.id = none)
    (hdupI : findAttendance ai lec.id stu.id = some a) :
    scanStep lects studs ac ai u (.ok p) loc dev now = (.serverError, ai) := by
  unfold scanStep
  simp [hfresh, hl, hs, hb, hm, hsec, hdupC, createAttendance,
    findAttendance_some_any hdupI]

/-- The classifier never yields `absent`. -/
lemma scanStatus_ne_absent (lec : Lecture) (now : Int) :
    scanStatus lec now ≠ .absent := by
  unfold scanStatus
  (repeat' split) <;> simp

/-- Unfolding equation for the cons case of `pairRecords`. -/
lemma pairRecords_cons (x : AttendanceRecord) (rest : List AttendanceRecord)
    (l s : Nat) :
    pairRecords (x :: rest) l s =
      if (x.lecture == l && x.student == s) = true then x :: pairRecords rest l s
      else pairRecords rest l s := by
  simp [pairRecords, List.filter_cons]

/-- Unfolding equation for the cons case of `findAttendance`. -/
lemma findAttendance_cons (x : AttendanceRecord) (rest : List AttendanceRecord)
    (l s : Nat) :
    findAttendance (x :: rest) l s =
      if (x.lecture == l && x.student == s) = true then some x
      else findAttendance rest l s := by
  by_cases h : (x.lecture == l && x.student == s) = true
  · rw [if_pos h]
    exact List.find?_cons_of_pos _ h
  · rw [if_neg h]
    exact List.find?_cons_of_neg _ (by simpa using h)

/-- The `findOne` for a pair returns the head of that pair's record list. -/
lemma findAttendance_eq_head? (atts : List AttendanceRecord) (l s : Nat) :
    findAttendance atts l s = (pairRecords atts l s).head? := by
  induction atts with
  | nil => rfl
  | cons x rest ih =>
    rw [findAttendance_cons, pairRecords_cons]
    by_cases h : (x.lecture == l && x.student == s) = true
    · simp [h]
    · simp [h, ih]

/-- Unfolding equation for the cons case of `setStatusFirst`. -/
lemma setStatusFirst_cons (x : AttendanceRecord)
    (rest : List AttendanceRecord) (l s : Nat) (st : AttStatus) :
    setStatusFirst (x :: rest) l s st =
      if (x.lecture == l && x.student == s) = true then
        { x with status := st } :: rest
      else x :: setStatusFirst rest l s st := rfl

/-- Saving a status update onto the first matching record rewrites the head
of the pair's record list and nothing else of it. -/
lemma pairRecords_setStatusFirst (atts : List AttendanceRecord) (l s : Nat)
    (st : AttStatus) :
    pairRecords (setStatusFirst atts l s st) l s =
      match pairRecords atts l s with
      | [] => []
      | a :: rest => { a with status := st } :: rest := by
  induction atts with
  | nil => rfl
  | cons x rest ih =>
    rw [setStatusFirst_cons]
    by_cases h : (x.lecture == l && x.student == s) = true
    · have hx : ({ x with status := st }.lecture == l &&
          { x with status := st }.student == s) = true := by simpa using h
      rw [if_pos h, pairRecords_cons, if_pos hx]
      conv_rhs => rw [pairRecords_cons, if_pos h]
    · rw [if_neg h, pairRecords_cons, if_neg h, pairRecords_cons, if_neg h, ih]

/-- Appending one record extends exactly its own pair's record list. -/
lemma pairRecords_append_single (atts : List AttendanceRecord) (l s : Nat)
    (r : AttendanceRecord) :
    pairRecords (atts ++ [r]) l s =
      pairRecords atts l s ++
        (if (r.lecture == l && r.student == s) = true then [r] else []) := by
  simp [pairRecords, List.filter_append, List.filter_cons]

/-- Appending a record whose pair is absent from the store preserves the
uniqueness invariant. -/
lemma pairUnique_append_single {atts : List AttendanceRecord}
    {r : AttendanceRecord} (h : pairUnique atts)
    (hno : atts.any (fun a => a.lecture == r.lecture && a.student == r.student)
      = false) :
    pairUnique (atts ++ [r]) := by
  rw [pairUnique, List.pairwise_append]
  refine ⟨h, List.pairwise_singleton _ _, ?_⟩
  intro a ha b hb
  simp only [List.mem_singleton] at hb
  subst hb
  have := List.any_eq_false.mp hno a ha
  rintro ⟨h1, h2⟩
  exact this (by simp [h1, h2])

/-- Store-shape lemma: one scan either leaves the store untouched or
appends exactly one record whose pair was absent at insert time and whose
status is not `absent` — whatever snapshot the duplicate check saw. -/
lemma scanStep_snd (lects : List Lecture) (studs : List Student)
    (ac ai : List AttendanceRecord) (u : Nat) (qr : QRData)
    (loc : Option (Int × Int)) (dev : Option String) (now : Int) :
    (scanStep lects studs ac ai u qr loc dev now).2 = ai ∨
    ∃ r : AttendanceRecord,
      ai.any (fun a => a.lecture == r.lecture && a.student == r.student)
        = false ∧
      r.status ≠ .absent ∧
      (scanStep lects studs ac ai u qr loc dev now).2 = ai ++ [r] := by
  unfold scanStep
  (repeat' split) <;> try (left; rfl)
  rename_i atts2 heq
  unfold createAttendance at heq
  split at heq
  · cases heq
  · rename_i hcond
    cases heq
    right
    refine ⟨_, ?_, ?_, rfl⟩
    · simpa using hcond
    · exact scanStatus_ne_absent _ _

/-- One scan preserves the at-most-one-record-per-pair invariant. -/
lemma pairUnique_scanStep (lects : List Lecture) (studs : List Student)
    (ac ai : List AttendanceRecord) (u : Nat) (qr : QRData)
    (loc : Option (Int × Int)) (dev : Option String) (now : Int)
    (h : pairUnique ai) :
    pairUnique (scanStep lects studs ac ai u qr loc dev now).2 := by
  rcases scanStep_snd lects studs ac ai u qr loc dev now with h1 | ⟨r, hany, _, h2⟩
  · rw [h1]; exact h
  · rw [h2]; exact pairUnique_append_single h hany

/-- Any history of scans preserves the uniqueness invariant. -/
lemma pairUnique_runScans (lects : List Lecture) (studs : List Student)
    (evs : List ScanEvent) (atts : List AttendanceRecord)
    (h : pairUnique atts) : pairUnique (runScans lects studs evs atts) := by
  induction evs generalizing atts with
  | nil => exact h
  | cons e rest ih =>
    exact ih _ (pairUnique_scanStep lects studs e.snapshot atts e.userId e.qr
      e.loc e.dev e.now h)

/-- C1 counterexample: a scan whose duplicate check saw no record but whose
insert hits the duplicate-key violation of the unique (lecture, student)
index answers the generic 500 `serverError`, not the structured
`alreadyMarked` rejection — the claim as stated fails on the code. -/
theorem scan_dup_key_cex :
    scanStep [lecS] [stuS] [] [recS] 7 (.ok ⟨some "code", some 300⟩)
        none none 50 =
      (.serverError, [recS]) ∧
    (scanStep [lecS] [stuS] [] [recS] 7 (.ok ⟨some "code", some 300⟩)
        none none 50).1 ≠
      .alreadyMarked recS := by decide

/-- C1 (amended): whenever the insert hits the storage-level duplicate-key
violation (the pair was absent at check time but present at insert time),
the scan answers the generic fatal `serverError` and leaves the store
unchanged, and never the `alreadyMarked` rejection — the catch-all performs
no translation of the storage error. -/
theorem scan_dup_key_insert_server_error (lects : List Lecture)
    (studs : List Student) (attCheck attIns : List AttendanceRecord)
    (u : Nat) (p : ScanPayload) (loc : Option (Int × Int))
    (dev : Option String) (now : Int) (lec : Lecture) (stu : Student)
    (a : AttendanceRecord)
    (hfresh : jsDateLt p.expiresAt now = false)
    (hl : findLecture lects p.lectureCode = some lec)
    (hs : findStudentByUser studs u = some stu)
    (hb : stu.branch = lec.branch)
    (hm : stu.semester = lec.semester)
    (hsec : stu.sectionLabel = lec.sectionLabel)
    (hdupC : findAttendance attCheck lec.id stu.id = none)
    (hdupI : findAttendance attIns lec.id stu.id = some a) :
    scanStep lects studs attCheck attIns u (.ok p) loc dev now =
      (.serverError, attIns) ∧
    ∀ ex, (scanStep lects studs attCheck attIns u (.ok p) loc dev now).1 ≠
      .alreadyMarked ex := by
  have h := scanStep_dupInsert loc dev hfresh hl hs hb hm hsec hdupC hdupI
  refine ⟨h, fun ex => ?_⟩
  rw [h]
  simp

/-- C1 witness: the amended theorem applied at a concrete race. -/
theorem scan_dup_key_insert_server_error_witness :
    scanStep [lecS] [stuS] [] [recS] 7 (.ok ⟨some "code", some 300⟩)
        none none 50 = (.serverError, [recS]) :=
  (scan_dup_key_insert_server_error [lecS] [stuS] [] [recS] 7
    ⟨some "code", some 300⟩ none none 50 lecS stuS recS (by decide) (by decide)
    (by decide) (by decide) (by decide) (by decide) (by decide) (by decide)).1

/-- C2 counterexample: the stored session expired at 100 ms, the scan is
submitted at 200 ms with a tampered payload claiming expiry 300 ms, and the
scan is accepted and marked `present` instead of being rejected as
expired — the validator never re-checks the persisted `expiresAt`. -/
theorem scan_stored_expiry_ignored_cex :
    lecS.expiresAt < 200 ∧
    scanAttendance [lecS] [stuS] [] 7 (.ok ⟨some "code", some 300⟩)
        none none 200 =
      (.marked .present, [recS]) ∧
    (scanAttendance [lecS] [stuS] [] 7 (.ok ⟨some "code", some 300⟩)
        none none 200).1 ≠ .expired := by decide

/-- C2 (amended): the expiry gate tests only the client-supplied payload's
`expiresAt`; when that date is not in the past, a scan succeeds even though
`now` is past the persisted session's own `expiresAt` (the stored session
is consulted only for `isActive`), so the rejection is never `expired` in
that situation. -/
theorem scan_expiry_checks_only_payload (lects : List Lecture)
    (studs : List Student) (atts : List AttendanceRecord) (u : Nat)
    (p : ScanPayload) (loc : Option (Int × Int)) (dev : Option String)
    (now : Int) (lec : Lecture) (stu : Student)
    (hstored : lec.expiresAt < now)
    (hfresh : jsDateLt p.expiresAt now = false)
    (hl : findLecture lects p.lectureCode = some lec)
    (hs : findStudentByUser studs u = some stu)
    (hb : stu.branch = lec.branch)
    (hm : stu.semester = lec.semester)
    (hsec : stu.sectionLabel = lec.sectionLabel)
    (hdup : findAttendance atts lec.id stu.id = none) :
    scanAttendance lects studs atts u (.ok p) loc dev now =
      (.marked (scanStatus lec now),
        atts ++ [⟨lec.id, stu.id, scanStatus lec now, loc, dev⟩]) ∧
    (scanAttendance lects studs atts u (.ok p) loc dev now).1 ≠ .expired := by
  have h := scanStep_success loc dev hfresh hl hs hb hm hsec hdup hdup
  exact ⟨h, scanStep_ne_expired hfresh⟩

/-- C2 witness: the amended theorem applied at a concrete tampered scan. -/
theorem scan_expiry_checks_only_payload_witness :
    lecS.expiresAt < 200 ∧
    (scanAttendance [lecS] [stuS] [] 7 (.ok ⟨some "code", some 300⟩)
      none none 200).1 ≠ .expired :=
  ⟨by decide,
    (scan_expiry_checks_only_payload [lecS] [stuS] [] 7
      ⟨some "code", some 300⟩ none none 200 lecS stuS (by decide) (by decide)
      (by decide) (by decide) (by decide) (by decide) (by decide)
      (by decide)).2⟩

/-- C7 counterexample: the provided value −5 is not a positive integer,
yet session creation succeeds and computes an already-past expiry from it;
no `InvalidDuration` rejection exists in the code. -/
theorem generate_qr_no_invalid_duration_cex :
    generateLectureQR true 0 (some (-5)) = .created (-300000) := by decide

/-- C7 (amended): `validMinutes` is optional; when omitted — or falsy,
including 0 — the default of 60 minutes is used, and any nonzero provided
value (even a negative one) is used as given, `expiresAt = now +
(validMinutes || 60) minutes`; no validation or `InvalidDuration` error is
performed. -/
theorem generate_qr_expiry_computation (now : Int) (vm : Option Int) :
    generateLectureQR true now vm = .created (computeExpiresAt now vm) ∧
    generateLectureQR true now none = .created (now + 60 * 60000) ∧
    generateLectureQR true now (some 0) = .created (now + 60 * 60000) ∧
    (∀ x : Int, x ≠ 0 →
      generateLectureQR true now (some x) = .created (now + x * 60000)) := by
  refine ⟨rfl, rfl, rfl, ?_⟩
  intro x hx
  simp [generateLectureQR, computeExpiresAt, jsOrDefault, hx]

/-- C7 witness: the amended theorem applied at the value −5. -/
theorem generate_qr_expiry_computation_witness :
    generateLectureQR true 0 (some (-5)) = .created (0 + (-5) * 60000) :=
  ((generate_qr_expiry_computation 0 (some (-5))).2.2.2) (-5) (by decide)

/-- C10: the scan answers the expiry rejection exactly when the payload's
`expiresAt` parses to a valid date strictly earlier than `now`; a parsed
payload whose `expiresAt` is missing or unparseable (an invalid date, NaN
comparison false) passes the expiry gate and is neither `expired` nor
`invalidFormat` — it proceeds to the session lookup. -/
theorem scan_expired_iff_payload_date_past (lects : List Lecture)
    (studs : List Student) (atts : List AttendanceRecord) (u : Nat)
    (qr : QRData) (loc : Option (Int × Int)) (dev : Option String)
    (now : Int) :
    ((scanAttendance lects studs atts u qr loc dev now).1 = .expired ↔
      ∃ p t, qr = .ok p ∧ p.expiresAt = some t ∧ t < now) ∧
    (∀ p, qr = .ok p → p.expiresAt = none →
      (scanAttendance lects studs atts u qr loc dev now).1 ≠ .expired ∧
      (scanAttendance lects studs atts u qr loc dev now).1 ≠ .invalidFormat) := by
  constructor
  · cases qr with
    | malformed => simp [scanAttendance, scanStep]
    | ok p =>
      by_cases hlt : jsDateLt p.expiresAt now = true
      · rcases jsDateLt_true_iff.mp hlt with ⟨t, ht, hlt'⟩
        constructor
        · intro _
          exact ⟨p, t, rfl, ht, hlt'⟩
        · intro _
          simp [scanAttendance, scanStep, hlt]
      · have hfresh : jsDateLt p.expiresAt now = false := by
          simpa using hlt
        constructor
        · intro hcon
          exact absurd hcon (scanStep_ne_expired hfresh)
        · rintro ⟨p', t, hpq, hexp, htlt⟩
          injection hpq with hp
          subst hp
          exact absurd (jsDateLt_true_iff.mpr ⟨t, hexp, htlt⟩) hlt
  · intro p hq hnone
    subst hq
    have hfresh : jsDateLt p.expiresAt now = false := by rw [hnone]; rfl
    exact ⟨scanStep_ne_expired hfresh, scanStep_ne_invalidFormat⟩

/-- C10 witness: both directions of the characterization at concrete
inputs: a past payload date is rejected as expired, a missing one is
not. -/
theorem scan_expired_iff_payload_date_past_witness :
    (scanAttendance [lecS] [stuWrongSection] [] 7 (.ok ⟨some "code", some 5⟩)
      none none 10).1 = .expired ∧
    (scanAttendance [] [] [] 7 (.ok ⟨some "c", none⟩) none none 10).1 ≠
      .expired := by
  constructor
  · exact (scan_expired_iff_payload_date_past [lecS] [stuWrongSection] [] 7
      (.ok ⟨some "code", some 5⟩) none none 10).1.mpr
      ⟨⟨some "code", some 5⟩, 5, rfl, rfl, by decide⟩
  · exact ((scan_expired_iff_payload_date_past [] [] [] 7
      (.ok ⟨some "c", none⟩) none none 10).2 ⟨some "c", none⟩ rfl rfl).1

/-- When `startTime` parses to `(h, m)`, the classifier is the bare
threshold comparison against the start instant. -/
lemma scanStatus_eq_of_parse {lec : Lecture} {h m : Int} (now : Int)
    (hparse : parseStartTime lec.startTime = some (h, m)) :
    scanStatus lec now =
      if now - setHoursUTC lec.date h m > lateThreshold then .late
      else .present := by
  unfold scanStatus
  rw [hparse]

/-- C3: under any history of self-scan attempts — each duplicate check
reading an arbitrary snapshot, covering every interleaving — the store
keeps at most one record per (session, student) pair; and a second
sequential scan by the same student for the same session answers
`alreadyMarked` together with the existing record, leaving the store
unchanged. -/
theorem scan_pair_uniqueness (lects : List Lecture) (studs : List Student) :
    (∀ (evs : List ScanEvent) (atts : List AttendanceRecord),
      pairUnique atts → pairUnique (runScans lects studs evs atts)) ∧
    (∀ (atts : List AttendanceRecord) (u : Nat) (p : ScanPayload)
      (loc : Option (Int × Int)) (dev : Option String) (now : Int)
      (lec : Lecture) (stu : Student) (ex : AttendanceRecord),
      jsDateLt p.expiresAt now = false →
      findLecture lects p.lectureCode = some lec →
      findStudentByUser studs u = some stu →
      stu.branch = lec.branch →
      stu.semester = lec.semester →
      stu.sectionLabel = lec.sectionLabel →
      findAttendance atts lec.id stu.id = some ex →
      scanAttendance lects studs atts u (.ok p) loc dev now =
        (.alreadyMarked ex, atts)) := by
  constructor
  · exact fun evs atts h => pairUnique_runScans lects studs evs atts h
  · intro atts u p loc dev now lec stu ex hfresh hl hs hb hm hsec hdup
    exact scanStep_alreadyMarked atts loc dev hfresh hl hs hb hm hsec hdup

/-- C3 witness: the invariant after a concrete one-scan history, and the
repeated-scan outcome at a concrete store. -/
theorem scan_pair_uniqueness_witness :
    pairUnique
      (runScans [lecS] [stuS]
        [⟨[], 7, .ok ⟨some "code", some 300⟩, none, none, 50⟩] []) ∧
    scanAttendance [lecS] [stuS] [recS] 7 (.ok ⟨some "code", some 300⟩)
      none none 50 = (.alreadyMarked recS, [recS]) :=
  ⟨(scan_pair_uniqueness [lecS] [stuS]).1
      [⟨[], 7, .ok ⟨some "code", some 300⟩, none, none, 50⟩] []
      (by simp [pairUnique]),
    (scan_pair_uniqueness [lecS] [stuS]).2 [recS] 7 ⟨some "code", some 300⟩
      none none 50 lecS stuS recS (by decide) (by decide) (by decide)
      (by decide) (by decide) (by decide) (by decide)⟩

/-- C9: every record in the store after a scan either was already there
or has status `present` or `late` — the self-scan path never creates an
`absent` record (only the teacher's manual path can). -/
theorem scan_never_creates_absent (lects : List Lecture)
    (studs : List Student) (ac ai : List AttendanceRecord) (u : Nat)
    (qr : QRData) (loc : Option (Int × Int)) (dev : Option String)
    (now : Int) (r : AttendanceRecord)
    (hmem : r ∈ (scanStep lects studs ac ai u qr loc dev now).2) :
    r ∈ ai ∨ r.status = .present ∨ r.status = .late := by
  rcases scanStep_snd lects studs ac ai u qr loc dev now with
    h1 | ⟨r', _, hst, h2⟩
  · rw [h1] at hmem
    exact .inl hmem
  · rw [h2] at hmem
    rcases List.mem_append.mp hmem with h | h
    · exact .inl h
    · simp only [List.mem_singleton] at h
      subst h
      right
      cases hr : r.status with
      | present => exact .inl rfl
      | late => exact .inr rfl
      | absent => exact absurd hr hst

/-- C9 witness: the theorem applied to the record a concrete successful
scan creates. -/
theorem scan_never_creates_absent_witness :
    recS ∈ (scanStep [lecS] [stuS] [] [] 7 (.ok ⟨some "code", some 300⟩)
      none none 50).2 ∧
    (recS ∈ ([] : List AttendanceRecord) ∨ recS.status = .present ∨
      recS.status = .late) :=
  ⟨by decide,
    scan_never_creates_absent [lecS] [stuS] [] [] 7
      (.ok ⟨some "code", some 300⟩) none none 50 recS (by decide)⟩

/-- C6: a successful self-scan records `late` exactly when `now` minus
the lecture start (the session date with time of day taken from
`startTime`) strictly exceeds the 15-minute threshold in milliseconds,
and `present` otherwise; at exactly 15 minutes the status is `present`
(the comparison is strict). -/
theorem scan_late_classification (lects : List Lecture)
    (studs : List Student) (atts : List AttendanceRecord) (u : Nat)
    (p : ScanPayload) (loc : Option (Int × Int)) (dev : Option String)
    (now : Int) (lec : Lecture) (stu : Student) (sh sm : Int)
    (hfresh : jsDateLt p.expiresAt now = false)
    (hl : findLecture lects p.lectureCode = some lec)
    (hs : findStudentByUser studs u = some stu)
    (hb : stu.branch = lec.branch)
    (hm : stu.semester = lec.semester)
    (hsec : stu.sectionLabel = lec.sectionLabel)
    (hdup : findAttendance atts lec.id stu.id = none)
    (hparse : parseStartTime lec.startTime = some (sh, sm)) :
    scanAttendance lects studs atts u (.ok p) loc dev now =
      (.marked (scanStatus lec now),
        atts ++ [⟨lec.id, stu.id, scanStatus lec now, loc, dev⟩]) ∧
    (scanStatus lec now = .late ↔
      now - setHoursUTC lec.date sh sm > lateThreshold) ∧
    (now - setHoursUTC lec.date sh sm = lateThreshold →
      scanStatus lec now = .present) := by
  refine ⟨scanStep_success loc dev hfresh hl hs hb hm hsec hdup hdup, ?_, ?_⟩
  · rw [scanStatus_eq_of_parse now hparse]
    by_cases hgt : now - setHoursUTC lec.date sh sm > lateThreshold
    · simp [hgt]
    · simp [hgt]
  · intro heq
    rw [scanStatus_eq_of_parse now hparse, heq]
    simp

/-- C6 witness: the boundary case exactly at the threshold via the
theorem, plus concrete evaluations on both sides of the boundary. -/
theorem scan_late_classification_witness :
    (scanStatus lecS (32400000 + lateThreshold) = .present) ∧
    (scanStatus lecS (32400000 + lateThreshold + 1) = .late) ∧
    scanAttendance [lecS] [stuS] [] 7 (.ok ⟨some "code", some 999999999⟩)
        none none (32400000 + lateThreshold) =
      (.marked .present,
        [⟨0, 5, .present, none, none⟩]) := by
  refine ⟨?_, by decide, by decide⟩
  exact (scan_late_classification [lecS] [stuS] [] 7
    ⟨some "code", some 999999999⟩ none none (32400000 + lateThreshold)
    lecS stuS 9 0 (by decide) (by decide) (by decide) (by decide) (by decide)
    (by decide) (by decide) (by decide)).2.2 (by decide)

/-- C4: the scan's checks run in the fixed order malformed payload,
payload expiry, session lookup (exists and active), student profile
lookup, branch, semester, section, duplicate record; the first failing
check alone determines the rejection, later checks never run — in
particular an expired payload scanned by a wrong-section student yields
the expiry rejection.  The nine conjuncts cover every mutually exclusive
case, so together they characterize the whole pipeline. -/
theorem scan_check_order (lects : List Lecture) (studs : List Student)
    (atts : List AttendanceRecord) (u : Nat) (qr : QRData)
    (loc : Option (Int × Int)) (dev : Option String) (now : Int) :
    (qr = .malformed →
      scanAttendance lects studs atts u qr loc dev now =
        (.invalidFormat, atts)) ∧
    (∀ p, qr = .ok p → jsDateLt p.expiresAt now = true →
      scanAttendance lects studs atts u qr loc dev now = (.expired, atts)) ∧
    (∀ p, qr = .ok p → jsDateLt p.expiresAt now = false →
      findLecture lects p.lectureCode = none →
      scanAttendance lects studs atts u qr loc dev now =
        (.lectureNotFound, atts)) ∧
    (∀ p lec, qr = .ok p → jsDateLt p.expiresAt now = false →
      findLecture lects p.lectureCode = some lec →
      findStudentByUser studs u = none →
      scanAttendance lects studs atts u qr loc dev now =
        (.studentNotFound, atts)) ∧
    (∀ p lec stu, qr = .ok p → jsDateLt p.expiresAt now = false →
      findLecture lects p.lectureCode = some lec →
      findStudentByUser studs u = some stu →
      stu.branch ≠ lec.branch →
      scanAttendance lects studs atts u qr loc dev now =
        (.branchMismatch, atts)) ∧
    (∀ p lec stu, qr = .ok p → jsDateLt p.expiresAt now = false →
      findLecture lects p.lectureCode = some lec →
      findStudentByUser studs u = some stu →
      stu.branch = lec.branch → stu.semester ≠ lec.semester →
      scanAttendance lects studs atts u qr loc dev now =
        (.semesterMismatch, atts)) ∧
    (∀ p lec stu, qr = .ok p → jsDateLt p.expiresAt now = false →
      findLecture lects p.lectureCode = some lec →
      findStudentByUser studs u = some stu →
      stu.branch = lec.branch → stu.semester = lec.semester →
      stu.sectionLabel ≠ lec.sectionLabel →
      scanAttendance lects studs atts u qr loc dev now =
        (.sectionMismatch, atts)) ∧
    (∀ p lec stu ex, qr = .ok p → jsDateLt p.expiresAt now = false →
      findLecture lects p.lectureCode = some lec →
      findStudentByUser studs u = some stu →
      stu.branch = lec.branch → stu.semester = lec.semester →
      stu.sectionLabel = lec.sectionLabel →
      findAttendance atts lec.id stu.id = some ex →
      scanAttendance lects studs atts u qr loc dev now =
        (.alreadyMarked ex, atts)) ∧
    (∀ p lec stu, qr = .ok p → jsDateLt p.expiresAt now = false →
      findLecture lects p.lectureCode = some lec →
      findStudentByUser studs u = some stu →
      stu.branch = lec.branch → stu.semester = lec.semester →
      stu.sectionLabel = lec.sectionLabel →
      findAttendance atts lec.id stu.id = none →
      scanAttendance lects studs atts u qr loc dev now =
        (.marked (scanStatus lec now),
          atts ++ [⟨lec.id, stu.id, scanStatus lec now, loc, dev⟩])) := by
  refine ⟨?_, ?_, ?_, ?_, ?_, ?_, ?_, ?_, ?_⟩
  · rintro rfl
    rfl
  · rintro p rfl hexp
    simp [scanAttendance, scanStep, hexp]
  · rintro p rfl hfresh hl
    simp [scanAttendance, scanStep, hfresh, hl]
  · rintro p lec rfl hfresh hl hs
    simp [scanAttendance, scanStep, hfresh, hl, hs]
  · rintro p lec stu rfl hfresh hl hs hb
    simp [scanAttendance, scanStep, hfresh, hl, hs, hb]
  · rintro p lec stu rfl hfresh hl hs hb hm
    simp [scanAttendance, scanStep, hfresh, hl, hs, hb, hm]
  · rintro p lec stu rfl hfresh hl hs hb hm hsec
    simp [scanAttendance, scanStep, hfresh, hl, hs, hb, hm, hsec]
  · rintro p lec stu ex rfl hfresh hl hs hb hm hsec hdup
    exact scanStep_alreadyMarked atts loc dev hfresh hl hs hb hm hsec hdup
  · rintro p lec stu rfl hfresh hl hs hb hm hsec hdup
    exact scanStep_success loc dev hfresh hl hs hb hm hsec hdup hdup

/-- C4 witness: the claim's example — a wrong-section student scanning an
expired payload receives the expiry rejection, not the section
mismatch. -/
theorem scan_check_order_witness :
    scanAttendance [lecS] [stuWrongSection] [] 7 (.ok ⟨some "code", some 5⟩)
      none none 10 = (.expired, []) :=
  (scan_check_order [lecS] [stuWrongSection] [] 7 (.ok ⟨some "code", some 5⟩)
    none none 10).2.1 ⟨some "code", some 5⟩ rfl (by decide)

/-- Update path of the manual mark: with a lecture hit and an existing
record, the first matching record's status is overwritten. -/
lemma markAttendanceManually_update {lects : List Lecture}
    {atts : List AttendanceRecord} {lid sid : Nat} {lec : Lecture}
    {a : AttendanceRecord} (st : AttStatus)
    (hlec : findLectureById lects lid = some lec)
    (hfa : findAttendance atts lec.id sid = some a) :
    markAttendanceManually lects atts lid sid st =
      (.marked { a with status := st }, setStatusFirst atts lec.id sid st) := by
  simp only [markAttendanceManually, hlec, hfa]

/-- Create path of the manual mark: with a lecture hit and no existing
record, one record with the given status is appended. -/
lemma markAttendanceManually_create {lects : List Lecture}
    {atts : List AttendanceRecord} {lid sid : Nat} {lec : Lecture}
    (st : AttStatus)
    (hlec : findLectureById lects lid = some lec)
    (hfa : findAttendance atts lec.id sid = none) :
    markAttendanceManually lects atts lid sid st =
      (.marked ⟨lec.id, sid, st, none, none⟩,
        atts ++ [⟨lec.id, sid, st, none, none⟩]) := by
  simp only [markAttendanceManually, hlec, hfa]
  simp [createAttendance, findAttendance_none_any hfa]

/-- C5: two successive manual marks for the same (session, student) with
statuses `s1` then `s2` both succeed (no rejection on duplicate), and
leave exactly one record for the pair, carrying the later status `s2`;
the lecture being found by id is the only precondition — no expiry,
activity or cohort check constrains the arbitrary `lec`. -/
theorem manual_mark_idempotent_latest_wins (lects : List Lecture)
    (atts : List AttendanceRecord) (lid sid : Nat) (s1 s2 : AttStatus)
    (lec : Lecture)
    (hlec : findLectureById lects lid = some lec)
    (hone : (pairRecords atts lec.id sid).length ≤ 1) :
    (∃ a1, (markAttendanceManually lects atts lid sid s1).1 = .marked a1 ∧
      a1.status = s1) ∧
    (∃ a2, (markAttendanceManually lects
        (markAttendanceManually lects atts lid sid s1).2 lid sid s2).1 =
          .marked a2 ∧ a2.status = s2) ∧
    (pairRecords (markAttendanceManually lects
        (markAttendanceManually lects atts lid sid s1).2 lid sid s2).2
      lec.id sid).map (fun a => a.status) = [s2] := by
  cases hfa : findAttendance atts lec.id sid with
  | some a =>
    have hpr : pairRecords atts lec.id sid = [a] := by
      have hh := findAttendance_eq_head? atts lec.id sid
      rw [hfa] at hh
      cases hpr0 : pairRecords atts lec.id sid with
      | nil => rw [hpr0] at hh; cases hh
      | cons b t =>
        rw [hpr0] at hh
        rw [hpr0] at hone
        simp only [List.head?_cons, Option.some.injEq] at hh
        have ht : t = [] := by
          have := List.length_cons b t ▸ hone
          cases t with
          | nil => rfl
          | cons c t2 => simp at this
        subst ht
        rw [hh]
    have h1 := markAttendanceManually_update s1 hlec hfa
    have hpr1 : pairRecords (markAttendanceManually lects atts lid sid s1).2
        lec.id sid = [{ a with status := s1 }] := by
      rw [h1, pairRecords_setStatusFirst, hpr]
    have hfa1 : findAttendance (markAttendanceManually lects atts lid sid s1).2
        lec.id sid = some { a with status := s1 } := by
      rw [findAttendance_eq_head?, hpr1]
      rfl
    have h2 := markAttendanceManually_update s2 hlec hfa1
    refine ⟨⟨{ a with status := s1 }, by rw [h1], rfl⟩,
      ⟨{ { a with status := s1 } with status := s2 }, by rw [h2], rfl⟩, ?_⟩
    rw [h2]
    simp only [pairRecords_setStatusFirst, hpr1]
    rfl
  | none =>
    have hpr : pairRecords atts lec.id sid = [] := by
      have hh := findAttendance_eq_head? atts lec.id sid
      rw [hfa] at hh
      exact (List.head?_eq_none_iff.mp hh.symm)
    have h1 := markAttendanceManually_create s1 hlec hfa
    have hpr1 : pairRecords (markAttendanceManually lects atts lid sid s1).2
        lec.id sid = [⟨lec.id, sid, s1, none, none⟩] := by
      rw [h1, pairRecords_append_single, hpr]
      simp
    have hfa1 : findAttendance (markAttendanceManually lects atts lid sid s1).2
        lec.id sid = some ⟨lec.id, sid, s1, none, none⟩ := by
      rw [findAttendance_eq_head?, hpr1]
      rfl
    have h2 := markAttendanceManually_update s2 hlec hfa1
    refine ⟨⟨⟨lec.id, sid, s1, none, none⟩, by rw [h1], rfl⟩,
      ⟨_, by rw [h2], rfl⟩, ?_⟩
    rw [h2]
    simp only [pairRecords_setStatusFirst, hpr1]
    rfl

/-- C5 witness: marking `present` then `absent` on an empty store leaves
exactly one record with status `absent`. -/
theorem manual_mark_idempotent_latest_wins_witness :
    (pairRecords (markAttendanceManually [lecS]
        (markAttendanceManually [lecS] [] 0 9 .present).2 0 9 .absent).2
      lecS.id 9).map (fun a => a.status) = [.absent] :=
  (manual_mark_idempotent_latest_wins [lecS] [] 0 9 .present .absent lecS
    (by decide) (by decide)).2.2

/-- The percentage formula in the spec's shape: the code's
`round(((p + l) / t) * 100)` equals `round(100 * (p + l) / t)` over exact
rationals, and is 0 for an empty schedule. -/
lemma pct_spec (p l t : Nat) :
    (0 < t → pct p l t = jsRound (100 * (((p : ℚ) + l) / t))) ∧
    (t = 0 → pct p l t = 0) := by
  constructor
  · intro ht
    unfold pct
    rw [if_pos ht]
    congr 1
    ring
  · intro ht
    subst ht
    rfl

/-- C8: per subject and overall, the reported percentage is
`round(100 * (present + late) / totalLectures)` (JS `Math.round` over the
exact rational), and 0 when `totalLectures = 0`; in the scenario of ten
scheduled lectures with six `present` and two `late` records the summary
reports present 6, late 2, absent 2, percentage 80. -/
theorem attendance_summary_percentage (L : List Lecture)
    (R : List AttendanceRecord) (code : String) :
    (0 < (subjectSummary L R code).totalLectures →
      (subjectSummary L R code).percentage =
        jsRound (100 * ((((subjectSummary L R code).present : ℚ) +
          (subjectSummary L R code).late) /
          (subjectSummary L R code).totalLectures))) ∧
    ((subjectSummary L R code).totalLectures = 0 →
      (subjectSummary L R code).percentage = 0) ∧
    (0 < (overallSummary L R).totalLectures →
      (overallSummary L R).percentage =
        jsRound (100 * ((((overallSummary L R).present : ℚ) +
          (overallSummary L R).late) / (overallSummary L R).totalLectures))) ∧
    ((overallSummary L R).totalLectures = 0 →
      (overallSummary L R).percentage = 0) ∧
    overallSummary scenarioLectures scenarioRecords = ⟨10, 6, 2, 2, 80⟩ ∧
    subjectSummary scenarioLectures scenarioRecords "CS101" =
      ⟨10, 6, 2, 2, 80⟩ := by
  refine ⟨?_, ?_, ?_, ?_, ?_, ?_⟩
  · intro ht
    simp only [subjectSummary] at ht ⊢
    exact (pct_spec _ _ _).1 ht
  · intro ht
    simp only [subjectSummary] at ht ⊢
    exact (pct_spec _ _ _).2 ht
  · intro ht
    simp only [overallSummary] at ht ⊢
    exact (pct_spec _ _ _).1 ht
  · intro ht
    simp only [overallSummary] at ht ⊢
    exact (pct_spec _ _ _).2 ht
  · have hp : (List.filter (fun a => a.status == AttStatus.present)
        scenarioRecords).length = 6 := by decide
    have hl : (List.filter (fun a => a.status == AttStatus.late)
        scenarioRecords).length = 2 := by decide
    have ht : scenarioLectures.length = 10 := by decide
    simp only [overallSummary, hp, hl, ht, SubjectSummary.mk.injEq]
    norm_num [pct, jsRound]
  · have hp : subjectStatusCount scenarioLectures scenarioRecords "CS101"
        .present = 6 := by decide
    have hl : subjectStatusCount scenarioLectures scenarioRecords "CS101"
        .late = 2 := by decide
    have ht : subjectTotal scenarioLectures "CS101" = 10 := by decide
    simp only [subjectSummary, hp, hl, ht, SubjectSummary.mk.injEq]
    norm_num [pct, jsRound]

/-- C8 witness: the percentage formula instantiated on the concrete
scenario data. -/
theorem attendance_summary_percentage_witness :
    0 < (overallSummary scenarioLectures scenarioRecords).totalLectures ∧
    (overallSummary scenarioLectures scenarioRecords).percentage =
      jsRound (100 *
        ((((overallSummary scenarioLectures scenarioRecords).present : ℚ) +
          (overallSummary scenarioLectures scenarioRecords).late) /
          (overallSummary scenarioLectures scenarioRecords).totalLectures)) := by
  have h0 : 0 < (overallSummary scenarioLectures scenarioRecords).totalLectures := by
    decide
  exact ⟨h0, (attendance_summary_percentage scenarioLectures scenarioRecords
    "CS101").2.2.1 h0⟩
